import Mathlib

/-!
Shallow embedding of the Flutterwave webhook handler
(src/api/webhooks/flutterwave.js) of the Rewarder repository.

The handler is one linear flow: method gate, HMAC signature check,
event filter, provider-side verification call, transaction-reference
parsing, record synthesis, single database write, response.

Modelling conventions:
* External effects (HMAC computation, JSON serialization, the
  provider verification fetch, the random source, the two clock
  reads) are parameters of the handler function.
* The verification fetch may throw; it is modelled as
  `Except String Verification`, and a thrown error surfaces as the
  500 branch of the outer catch, exactly as in the source.
* Timestamps are modelled as epoch milliseconds (`Nat`); the
  source's `toISOString` rendering is an injective view of that
  value and is not modelled separately.
* `Math.floor(Math.random() * chars.length)` supplies one natural
  number per loop iteration; the handler receives the whole draw
  sequence as a function `Nat → Nat`.  JavaScript's
  `String.prototype.charAt` returns the empty string out of range,
  which `charAt` below reproduces.
* JavaScript's falsy check `if (!eventId)` rejects both `null` and
  the empty string; the model distinguishes `none` from `some ""`
  and rejects both, mirroring the source.
-/

namespace Rewarder

/-- `data.customer` of the inbound event / verification payload. -/
structure Customer where
  email : String
  name : String
deriving DecidableEq

/-- The `data` object shared by the inbound event body and the
verification response of the payment provider. -/
structure TxData where
  id : String
  status : String
  amount : Int
  currency : String
  tx_ref : String
  customer : Customer
  flw_ref : String
  payment_type : String
deriving DecidableEq

/-- The inbound webhook body `{ event, data }`. -/
structure WebhookBody where
  event : String
  data : TxData
deriving DecidableEq

/-- The inbound HTTP request: the method, the `verif-hash` header
(absent modelled as `none`), and the parsed JSON body. -/
structure Request where
  method : String
  signature : Option String
  body : WebhookBody
deriving DecidableEq

/-- Response of the provider's transaction-verify endpoint:
`{ status, data }`. -/
structure Verification where
  status : String
  data : TxData
deriving DecidableEq

/-- The alphabet used by `generateAdCode`:
`const chars = 'ABCDEFGHIJKLMNOPQRSTUVWXYZ0123456789'`. -/
def chars : String := "ABCDEFGHIJKLMNOPQRSTUVWXYZ0123456789"

/-- JavaScript `s.charAt(i)`: the one-character string at index `i`,
or the empty string when `i` is out of range.  Rendered on the
character-list level. -/
def charAt (s : String) (i : Nat) : List Char :=
  match s.toList.get? i with
  | some c => [c]
  | none => []

/-- `generateAdCode`: start from `'AD'` and append
`chars.charAt(draws i)` for `i = 0 .. 10`, where `draws i` models the
`i`-th value of `Math.floor(Math.random() * chars.length)`. -/
def generateAdCode (draws : Nat → Nat) : String :=
  String.mk ((List.range 11).foldl (fun acc i => acc ++ charAt chars (draws i)) ['A', 'D'])

/-- JavaScript `s.split(sep)` for a one-character separator, on the
character-list level: the empty string splits to `[""]`, and every
occurrence of the separator opens a new segment. -/
def splitOnChar (sep : Char) : List Char → List (List Char)
  | [] => [[]]
  | c :: cs =>
    match splitOnChar sep cs with
    | [] => [[]]
    | s :: rest =>
      if c = sep then [] :: s :: rest
      else (c :: s) :: rest

/-- The segments of `txRef.split('_')`, as strings. -/
def refParts (txRef : String) : List String :=
  (splitOnChar '_' txRef.toList).map String.mk

/-- `parseTransactionRef`: split on `'_'`; if there are at least 3
parts and the first is `'boost'`, return part 1, else `null`. -/
def parseTransactionRef (txRef : String) : Option String :=
  if 3 ≤ (refParts txRef).length ∧ (refParts txRef).get? 0 = some "boost" then
    (refParts txRef).get? 1
  else
    none

/-- The `ads.image` sub-object of the synthesized record. -/
structure AdImageSlot where
  contentType : Option String
  dataUrl : Option String
  websiteUrl : Option String
  editsUsed : Nat
  totalEdits : Nat
  views : Nat
  clicks : Nat
  uploaded : Bool
deriving DecidableEq

/-- The `flutterwaveData` sub-object of the synthesized record. -/
structure FlutterwaveMeta where
  txRef : String
  flwRef : String
  paymentType : String
deriving DecidableEq

/-- The Ad Package Record written to the database (`packageData` in
the source).  Timestamps are epoch milliseconds. -/
structure PackageData where
  packageId : String
  packageName : String
  packageType : String
  status : String
  createdAt : Nat
  expiresAt : Nat
  totalAmountPaid : Int
  paymentId : String
  adCode : String
  currency : String
  customerEmail : String
  customerName : String
  webhookProcessedAt : Nat
  flutterwaveData : FlutterwaveMeta
  adTypes : List String
  placements : List String
  duration : Nat
  adsImage : AdImageSlot
  totalViews : Nat
  totalClicks : Nat
  viewsPerDay : List (String × Nat)
deriving DecidableEq

/-- Synthesis of `packageData` in the handler.  `nowMs` models
`new Date()` (used for `createdAt`, `expiresAt`,
`webhookProcessedAt`) and `dateNowMs` models the separate
`Date.now()` read used for `packageId`. -/
def mkPackageData (verification : Verification) (adCode : String)
    (nowMs dateNowMs : Nat) : PackageData :=
  { packageId := "ads_pkg_" ++ toString dateNowMs
    packageName := "Webhook Package"
    packageType := "webhook"
    status := "pending_upload"
    createdAt := nowMs
    expiresAt := nowMs + 7 * 24 * 60 * 60 * 1000
    totalAmountPaid := verification.data.amount
    paymentId := verification.data.id
    adCode := adCode
    currency := verification.data.currency
    customerEmail := verification.data.customer.email
    customerName := verification.data.customer.name
    webhookProcessedAt := nowMs
    flutterwaveData :=
      { txRef := verification.data.tx_ref
        flwRef := verification.data.flw_ref
        paymentType := verification.data.payment_type }
    adTypes := ["image"]
    placements := ["app_ads_footer"]
    duration := 7
    adsImage :=
      { contentType := none
        dataUrl := none
        websiteUrl := none
        editsUsed := 0
        totalEdits := 1
        views := 0
        clicks := 0
        uploaded := false }
    totalViews := 0
    totalClicks := 0
    viewsPerDay := [] }

/-- The HTTP response of the handler, one constructor per `return`
site of the source. -/
inductive Response where
  | methodNotAllowed
  | invalidSignature
  | ignored
  | verificationFailed
  | invalidReference
  | success (eventId : String) (packageId : String) (adCode : String) (amount : Int)
  | serverError (msg : String)
deriving DecidableEq

/-- The HTTP status code of each response. -/
def Response.statusCode : Response → Nat
  | .methodNotAllowed => 405
  | .invalidSignature => 401
  | .ignored => 200
  | .verificationFailed => 400
  | .invalidReference => 400
  | .success _ _ _ _ => 200
  | .serverError _ => 500

/-- The `message` field of the JSON response body, when present. -/
def Response.message : Response → Option String
  | .ignored => some "Event ignored"
  | .success _ _ _ _ => some "Payment processed successfully"
  | _ => none

/-- Observable outcome of one handler invocation: the response, a
flag recording whether the provider verification endpoint was called,
and the database write (event id, package document id, record) if one
happened. -/
structure HandlerResult where
  response : Response
  verifyCalled : Bool
  write : Option (String × String × PackageData)
deriving DecidableEq

/-- The webhook handler.  Parameters: the shared webhook secret, the
HMAC-SHA256-hex oracle (`key → message → digest`), the JSON
serializer for the body, the provider verification call (possibly
throwing), the random-draw sequence, the two clock reads, and the
inbound request. -/
def handler (secret : String) (hmacHex : String → String → String)
    (stringify : WebhookBody → String)
    (verify : String → Except String Verification)
    (draws : Nat → Nat) (nowMs dateNowMs : Nat)
    (req : Request) : HandlerResult :=
  if req.method ≠ "POST" then
    { response := .methodNotAllowed, verifyCalled := false, write := none }
  else
    let hash := hmacHex secret (stringify req.body)
    if req.signature ≠ some hash then
      { response := .invalidSignature, verifyCalled := false, write := none }
    else if req.body.event ≠ "charge.completed" ∨ req.body.data.status ≠ "successful" then
      { response := .ignored, verifyCalled := false, write := none }
    else
      match verify req.body.data.id with
      | .error e => { response := .serverError e, verifyCalled := true, write := none }
      | .ok verification =>
        if verification.status ≠ "success" ∨ verification.data.status ≠ "successful" then
          { response := .verificationFailed, verifyCalled := true, write := none }
        else
          match parseTransactionRef req.body.data.tx_ref with
          | none =>
            { response := .invalidReference, verifyCalled := true, write := none }
          | some eventId =>
            if eventId = "" then
              { response := .invalidReference, verifyCalled := true, write := none }
            else
              let adCode := generateAdCode draws
              let pkg := mkPackageData verification adCode nowMs dateNowMs
              { response := .success eventId pkg.packageId adCode verification.data.amount
                verifyCalled := true
                write := some (eventId, pkg.packageId, pkg) }

/-! Concrete fixtures used by witness theorems. -/

/-- A concrete customer. -/
def okCustomer : Customer := { email := "ada@example.com", name := "Ada" }

/-- A concrete successful transaction payload with a well-formed
transaction reference. -/
def okTxData : TxData :=
  { id := "12345", status := "successful", amount := 5000, currency := "NGN"
    tx_ref := "boost_evt123_1699999999", customer := okCustomer
    flw_ref := "FLW-REF-1", payment_type := "card" }

/-- A concrete verification response confirming the payment. -/
def okVerification : Verification := { status := "success", data := okTxData }

/-- A concrete successful-charge webhook body. -/
def okBody : WebhookBody := { event := "charge.completed", data := okTxData }

/-- A concrete POST request carrying the matching signature for
`okHmac` and `okStringify`. -/
def okReq : Request := { method := "POST", signature := some "deadbeef", body := okBody }

/-- A concrete HMAC oracle. -/
def okHmac : String → String → String := fun _ _ => "deadbeef"

/-- A concrete serializer oracle. -/
def okStringify : WebhookBody → String := fun _ => "serialized"

/-- A concrete verification oracle that confirms every transaction. -/
def okVerify : String → Except String Verification := fun _ => Except.ok okVerification

/-- The handler outcome on the happy-path fixtures. -/
def okRun : HandlerResult :=
  handler "secret" okHmac okStringify okVerify (fun i => i) 1700000000000 1700000000005 okReq

/-- A concrete body whose event is not a completed charge. -/
def failBody : WebhookBody := { event := "charge.failed", data := okTxData }

/-- A concrete signed request carrying `failBody`. -/
def failEventReq : Request :=
  { method := "POST", signature := some "deadbeef", body := failBody }

/-- A concrete request whose signature header does not match. -/
def wrongSigReq : Request :=
  { method := "POST", signature := some "wrong", body := okBody }

/-- A concrete transaction payload with a malformed reference. -/
def badRefTxData : TxData := { okTxData with tx_ref := "badref" }

/-- A concrete successful-charge body with a malformed reference. -/
def badRefBody : WebhookBody := { event := "charge.completed", data := badRefTxData }

/-- A concrete signed request carrying `badRefBody`. -/
def badRefReq : Request :=
  { method := "POST", signature := some "deadbeef", body := badRefBody }

/-- A concrete transaction payload whose reference has an empty
second segment. -/
def emptyIdTxData : TxData := { okTxData with tx_ref := "boost__1699999999" }

/-- A concrete successful-charge body carrying `emptyIdTxData`. -/
def emptyIdBody : WebhookBody := { event := "charge.completed", data := emptyIdTxData }

/-- A concrete signed request carrying `emptyIdBody`. -/
def emptyIdReq : Request :=
  { method := "POST", signature := some "deadbeef", body := emptyIdBody }

/-- A second concrete customer. -/
def altCustomer : Customer := { email := "eve@example.com", name := "Eve" }

/-- A concrete transaction payload differing from `okTxData` only in
amount, currency and customer. -/
def altTxData : TxData :=
  { okTxData with
      amount := 9999
      currency := "USD"
      customer := altCustomer }

/-- A concrete successful-charge body carrying `altTxData`. -/
def altBody : WebhookBody := { event := "charge.completed", data := altTxData }

/-- A concrete signed request carrying `altBody`. -/
def altReq : Request :=
  { method := "POST", signature := some "deadbeef", body := altBody }

/-- A concrete verification response reporting failure. -/
def badVerification : Verification := { status := "failed", data := okTxData }

/-- A concrete verification oracle reporting failure. -/
def badVerify : String → Except String Verification :=
  fun _ => Except.ok badVerification

/-! Claim theorems. -/

/-- C2: for every request body and secret, if the hex HMAC of the
serialized body under the secret does not equal the signature header,
the handler responds 401 and performs no verification call and no
database write, regardless of the body's content. -/
theorem c2_signature_mismatch_rejected_401
    (secret : String) (hmacHex : String → String → String)
    (stringify : WebhookBody → String)
    (verify : String → Except String Verification)
    (draws : Nat → Nat) (nowMs dateNowMs : Nat) (req : Request)
    (hpost : req.method = "POST")
    (hsig : req.signature ≠ some (hmacHex secret (stringify req.body))) :
    handler secret hmacHex stringify verify draws nowMs dateNowMs req =
      { response := Response.invalidSignature, verifyCalled := false, write := none } ∧
    Response.statusCode Response.invalidSignature = 401 := by
  refine ⟨?_, rfl⟩
  simp [handler, hpost, hsig]

/-- C2 witness: a concrete POST request whose signature header does
not match the computed HMAC is rejected with 401, no verification
call, no write. -/
theorem c2_signature_mismatch_rejected_401_witness :
    wrongSigReq.signature ≠ some (okHmac "secret" (okStringify wrongSigReq.body)) ∧
    (handler "secret" okHmac okStringify okVerify (fun i => i) 0 0 wrongSigReq =
      { response := Response.invalidSignature, verifyCalled := false, write := none } ∧
    Response.statusCode Response.invalidSignature = 401) :=
  ⟨by decide,
   c2_signature_mismatch_rejected_401 "secret" okHmac okStringify okVerify
     (fun i => i) 0 0 wrongSigReq rfl (by decide)⟩

/-- C3: for every signed request whose event is not
`charge.completed` or whose `data.status` is not `successful`, the
handler performs no database write and responds 200 with an
`Event ignored` message. -/
theorem c3_non_success_event_ignored_200
    (secret : String) (hmacHex : String → String → String)
    (stringify : WebhookBody → String)
    (verify : String → Except String Verification)
    (draws : Nat → Nat) (nowMs dateNowMs : Nat) (req : Request)
    (hpost : req.method = "POST")
    (hsig : req.signature = some (hmacHex secret (stringify req.body)))
    (hskip : req.body.event ≠ "charge.completed" ∨ req.body.data.status ≠ "successful") :
    handler secret hmacHex stringify verify draws nowMs dateNowMs req =
      { response := Response.ignored, verifyCalled := false, write := none } ∧
    Response.statusCode Response.ignored = 200 ∧
    Response.message Response.ignored = some "Event ignored" := by
  refine ⟨?_, rfl, rfl⟩
  rcases hskip with h | h <;> simp [handler, hpost, hsig, h]

/-- C3 witness: a concrete signed request carrying a failed charge is
ignored with 200 and no write. -/
theorem c3_non_success_event_ignored_200_witness :
    (failEventReq.body.event ≠ "charge.completed" ∨
      failEventReq.body.data.status ≠ "successful") ∧
    (handler "secret" okHmac okStringify okVerify (fun i => i) 0 0 failEventReq =
      { response := Response.ignored, verifyCalled := false, write := none } ∧
    Response.statusCode Response.ignored = 200 ∧
    Response.message Response.ignored = some "Event ignored") :=
  ⟨by decide,
   c3_non_success_event_ignored_200 "secret" okHmac okStringify okVerify
     (fun i => i) 0 0 failEventReq rfl rfl (by decide)⟩

/-- C4: for every verification response whose top-level status is not
`success` or whose nested `data.status` is not `successful`, the
handler performs no database write and responds 400. -/
theorem c4_failed_verification_rejected_400
    (secret : String) (hmacHex : String → String → String)
    (stringify : WebhookBody → String)
    (verify : String → Except String Verification)
    (draws : Nat → Nat) (nowMs dateNowMs : Nat) (req : Request) (v : Verification)
    (hpost : req.method = "POST")
    (hsig : req.signature = some (hmacHex secret (stringify req.body)))
    (hev : req.body.event = "charge.completed")
    (hst : req.body.data.status = "successful")
    (hv : verify req.body.data.id = Except.ok v)
    (hbad : v.status ≠ "success" ∨ v.data.status ≠ "successful") :
    handler secret hmacHex stringify verify draws nowMs dateNowMs req =
      { response := Response.verificationFailed, verifyCalled := true, write := none } ∧
    Response.statusCode Response.verificationFailed = 400 := by
  refine ⟨?_, rfl⟩
  rcases hbad with h | h <;> simp [handler, hpost, hsig, hev, hst, hv, h]

/-- C4 witness: a concrete signed successful-charge request whose
verification response reports a failed status is rejected with 400
and no write. -/
theorem c4_failed_verification_rejected_400_witness :
    (badVerification.status ≠ "success" ∨
      badVerification.data.status ≠ "successful") ∧
    (handler "secret" okHmac okStringify badVerify (fun i => i) 0 0 okReq =
      { response := Response.verificationFailed, verifyCalled := true, write := none } ∧
    Response.statusCode Response.verificationFailed = 400) :=
  ⟨by decide,
   c4_failed_verification_rejected_400 "secret" okHmac okStringify badVerify
     (fun i => i) 0 0 okReq badVerification rfl rfl rfl rfl rfl (by decide)⟩

/-- C1: the handler performs the database write only if all gate
conditions hold: the method is POST, the HMAC signature matched, the
event type and nested status indicate success, the provider-side
re-verification succeeded and reported success, and a non-empty
identifier was recovered from the transaction reference; if any one
fails, the handler returns with no write. -/
theorem c1_write_requires_all_conditions
    (secret : String) (hmacHex : String → String → String)
    (stringify : WebhookBody → String)
    (verify : String → Except String Verification)
    (draws : Nat → Nat) (nowMs dateNowMs : Nat) (req : Request)
    (h : (handler secret hmacHex stringify verify draws nowMs dateNowMs req).write.isSome) :
    req.method = "POST" ∧
    req.signature = some (hmacHex secret (stringify req.body)) ∧
    req.body.event = "charge.completed" ∧
    req.body.data.status = "successful" ∧
    (∃ v, verify req.body.data.id = Except.ok v ∧
      v.status = "success" ∧ v.data.status = "successful") ∧
    (∃ eid, parseTransactionRef req.body.data.tx_ref = some eid ∧ eid ≠ "") := by
  by_cases hpost : req.method = "POST"
  case neg => simp [handler, hpost] at h
  by_cases hsig : req.signature = some (hmacHex secret (stringify req.body))
  case neg => simp [handler, hpost, hsig] at h
  by_cases hev : req.body.event = "charge.completed"
  case neg => simp [handler, hpost, hsig, hev] at h
  by_cases hst : req.body.data.status = "successful"
  case neg => simp [handler, hpost, hsig, hev, hst] at h
  cases hveq : verify req.body.data.id with
  | error e => simp [handler, hpost, hsig, hev, hst, hveq] at h
  | ok v =>
    by_cases hvs : v.status = "success"
    case neg => simp [handler, hpost, hsig, hev, hst, hveq, hvs] at h
    by_cases hvds : v.data.status = "successful"
    case neg => simp [handler, hpost, hsig, hev, hst, hveq, hvs, hvds] at h
    cases hp : parseTransactionRef req.body.data.tx_ref with
    | none => simp [handler, hpost, hsig, hev, hst, hveq, hvs, hvds, hp] at h
    | some eid =>
      by_cases hne : eid = ""
      · simp [handler, hpost, hsig, hev, hst, hveq, hvs, hvds, hp, hne] at h
      · exact ⟨hpost, hsig, hev, hst, ⟨v, rfl, hvs, hvds⟩, ⟨eid, rfl, hne⟩⟩

/-- C1 witness: on the happy-path fixtures the write happens, and all
gate conditions indeed hold there. -/
theorem c1_write_requires_all_conditions_witness :
    okRun.write.isSome ∧
    (okReq.method = "POST" ∧
    okReq.signature = some (okHmac "secret" (okStringify okReq.body)) ∧
    okReq.body.event = "charge.completed" ∧
    okReq.body.data.status = "successful" ∧
    (∃ v, okVerify okReq.body.data.id = Except.ok v ∧
      v.status = "success" ∧ v.data.status = "successful") ∧
    (∃ eid, parseTransactionRef okReq.body.data.tx_ref = some eid ∧ eid ≠ "")) :=
  ⟨by decide,
   c1_write_requires_all_conditions "secret" okHmac okStringify okVerify
     (fun i => i) 1700000000000 1700000000005 okReq (by decide)⟩

/-- C5: reference parsing splits the reference on underscores; when
there are at least 3 segments and the first is the literal `boost`,
the recovered identifier is the second segment; for any other shape
no identifier is recovered, and the handler then aborts with 400 and
no database write. -/
theorem c5_reference_parsing
    (txRef : String) (secret : String) (hmacHex : String → String → String)
    (stringify : WebhookBody → String)
    (verify : String → Except String Verification)
    (draws : Nat → Nat) (nowMs dateNowMs : Nat) (req : Request) (v : Verification)
    (hpost : req.method = "POST")
    (hsig : req.signature = some (hmacHex secret (stringify req.body)))
    (hev : req.body.event = "charge.completed")
    (hst : req.body.data.status = "successful")
    (hv : verify req.body.data.id = Except.ok v)
    (hvok : v.status = "success") (hvok2 : v.data.status = "successful")
    (hparse : parseTransactionRef req.body.data.tx_ref = none) :
    (3 ≤ (refParts txRef).length ∧ (refParts txRef).get? 0 = some "boost" →
      parseTransactionRef txRef = (refParts txRef).get? 1) ∧
    (¬(3 ≤ (refParts txRef).length ∧ (refParts txRef).get? 0 = some "boost") →
      parseTransactionRef txRef = none) ∧
    (handler secret hmacHex stringify verify draws nowMs dateNowMs req =
      { response := Response.invalidReference, verifyCalled := true, write := none } ∧
    Response.statusCode Response.invalidReference = 400) := by
  refine ⟨fun hshape => ?_, fun hshape => ?_, ?_, rfl⟩
  · simp only [parseTransactionRef]
    rw [if_pos hshape]
  · simp only [parseTransactionRef]
    exact if_neg hshape
  · simp [handler, hpost, hsig, hev, hst, hv, hvok, hvok2, hparse]

/-- C5 witness: `boost_evt123_1699999999` parses to `evt123`, a
malformed reference parses to nothing, and a concrete run whose
reference is malformed aborts with 400 and no write. -/
theorem c5_reference_parsing_witness :
    (3 ≤ (refParts "boost_evt123_1699999999").length ∧
      (refParts "boost_evt123_1699999999").get? 0 = some "boost") ∧
    parseTransactionRef "boost_evt123_1699999999" =
      (refParts "boost_evt123_1699999999").get? 1 ∧
    ¬(3 ≤ (refParts "badref").length ∧ (refParts "badref").get? 0 = some "boost") ∧
    parseTransactionRef "badref" = none ∧
    (handler "secret" okHmac okStringify okVerify (fun i => i) 0 0
        { method := "POST", signature := some "deadbeef", body := badRefBody } =
      { response := Response.invalidReference, verifyCalled := true, write := none } ∧
    Response.statusCode Response.invalidReference = 400) :=
  ⟨by decide,
   (c5_reference_parsing "boost_evt123_1699999999" "secret" okHmac okStringify okVerify
     (fun i => i) 0 0 badRefReq okVerification rfl rfl rfl rfl rfl rfl rfl
     (by decide)).1 (by decide),
   by decide,
   (c5_reference_parsing "badref" "secret" okHmac okStringify okVerify
     (fun i => i) 0 0 badRefReq okVerification rfl rfl rfl rfl rfl rfl rfl
     (by decide)).2.1 (by decide),
   (c5_reference_parsing "badref" "secret" okHmac okStringify okVerify
     (fun i => i) 0 0 badRefReq okVerification rfl rfl rfl rfl rfl rfl rfl
     (by decide)).2.2⟩

/-- C10: for every transaction reference whose second
underscore-separated segment is empty, even with at least 3 segments
and first segment `boost`, the parser returns the empty string, the
handler treats this as no identifier, and it responds 400 without a
database write. -/
theorem c10_empty_second_segment_rejected
    (txRef : String) (secret : String) (hmacHex : String → String → String)
    (stringify : WebhookBody → String)
    (verify : String → Except String Verification)
    (draws : Nat → Nat) (nowMs dateNowMs : Nat) (req : Request) (v : Verification)
    (hlen : 3 ≤ (refParts txRef).length)
    (h0 : (refParts txRef).get? 0 = some "boost")
    (h1 : (refParts txRef).get? 1 = some "")
    (hpost : req.method = "POST")
    (hsig : req.signature = some (hmacHex secret (stringify req.body)))
    (hev : req.body.event = "charge.completed")
    (hst : req.body.data.status = "successful")
    (hv : verify req.body.data.id = Except.ok v)
    (hvok : v.status = "success") (hvok2 : v.data.status = "successful")
    (htx : req.body.data.tx_ref = txRef) :
    parseTransactionRef txRef = some "" ∧
    (handler secret hmacHex stringify verify draws nowMs dateNowMs req =
      { response := Response.invalidReference, verifyCalled := true, write := none } ∧
    Response.statusCode Response.invalidReference = 400) := by
  have hparse : parseTransactionRef txRef = some "" := by
    simp only [parseTransactionRef]
    rw [if_pos ⟨hlen, h0⟩, h1]
  refine ⟨hparse, ?_, rfl⟩
  simp [handler, hpost, hsig, hev, hst, hv, hvok, hvok2, htx, hparse]

/-- C10 witness: `boost__1699999999` has three segments, first
`boost` and second empty; the parser returns the empty string and a
concrete run carrying that reference aborts with 400 and no write. -/
theorem c10_empty_second_segment_rejected_witness :
    (3 ≤ (refParts "boost__1699999999").length ∧
      (refParts "boost__1699999999").get? 0 = some "boost" ∧
      (refParts "boost__1699999999").get? 1 = some "") ∧
    (parseTransactionRef "boost__1699999999" = some "" ∧
      (handler "secret" okHmac okStringify okVerify (fun i => i) 0 0 emptyIdReq =
        { response := Response.invalidReference, verifyCalled := true, write := none } ∧
      Response.statusCode Response.invalidReference = 400)) :=
  ⟨by decide,
   c10_empty_second_segment_rejected "boost__1699999999" "secret" okHmac okStringify
     okVerify (fun i => i) 0 0 emptyIdReq okVerification (by decide) (by decide)
     (by decide) rfl rfl rfl rfl rfl rfl rfl rfl⟩

/-! Helper lemmas for the ad-code claims. -/

/-- Folding string concatenation over a list equals the initial
segment followed by the joined pieces. -/
lemma foldl_append_join (f : Nat → List Char) :
    ∀ (l : List Nat) (acc : List Char),
      l.foldl (fun a i => a ++ f i) acc = acc ++ (l.map f).flatten := by
  intro l
  induction l with
  | nil => intro acc; simp
  | cons x xs ih => intro acc; simp [ih, List.append_assoc]

/-- In-range `charAt` yields the single character at that index. -/
lemma charAt_eq_singleton (s : String) (i : Nat) (h : i < s.toList.length) :
    charAt s i = [s.toList.getD i 'A'] := by
  unfold charAt
  rw [List.getD_eq_getElem _ _ h, List.get?_eq_getElem?, List.getElem?_eq_getElem h]

/-- Characters produced by `charAt` belong to the string. -/
lemma charAt_subset (s : String) (i : Nat) (c : Char) (hc : c ∈ charAt s i) :
    c ∈ s.toList := by
  unfold charAt at hc
  cases hg : s.toList.get? i with
  | none => rw [hg] at hc; simp at hc
  | some d =>
    rw [hg] at hc
    simp at hc
    subst hc
    exact List.get?_mem hg

/-- The character list of a generated ad code. -/
lemma generateAdCode_toList (draws : Nat → Nat) :
    (generateAdCode draws).toList =
      'A' :: 'D' :: ((List.range 11).map (fun i => charAt chars (draws i))).flatten := by
  show (List.range 11).foldl (fun acc i => acc ++ charAt chars (draws i)) ['A', 'D'] =
    'A' :: 'D' :: ((List.range 11).map (fun i => charAt chars (draws i))).flatten
  rw [foldl_append_join]
  rfl

/-- C6: when every random draw is in range (as
`Math.floor(Math.random() * 36)` always is), the generated ad code
has length exactly 13, starts with `AD`, and its remaining 11
characters all come from the alphabet `A`-`Z`, `0`-`9`. -/
theorem c6_adcode_format (draws : Nat → Nat) (h : ∀ i, i < 11 → draws i < 36) :
    (generateAdCode draws).length = 13 ∧
    (generateAdCode draws).toList.take 2 = ['A', 'D'] ∧
    (∀ c ∈ (generateAdCode draws).toList.drop 2, c ∈ chars.toList) := by
  have hchars : chars.toList.length = 36 := by decide
  have hmap : ((List.range 11).map (fun i => charAt chars (draws i))).map List.length
      = (List.range 11).map (fun _ => 1) := by
    rw [List.map_map]
    refine List.map_congr_left ?_
    intro i hi
    rw [List.mem_range] at hi
    have : draws i < chars.toList.length := by rw [hchars]; exact h i hi
    simp [charAt_eq_singleton chars (draws i) this]
  have hjlen : (((List.range 11).map (fun i => charAt chars (draws i))).flatten).length = 11 := by
    rw [List.length_flatten, hmap]
    decide
  refine ⟨?_, ?_, ?_⟩
  · show (generateAdCode draws).toList.length = 13
    rw [generateAdCode_toList]
    simp [hjlen]
  · rw [generateAdCode_toList]
    rfl
  · intro c hc
    rw [generateAdCode_toList] at hc
    simp only [List.drop_succ_cons, List.drop_zero] at hc
    rcases List.mem_flatten.mp hc with ⟨piece, hpiece, hcp⟩
    rcases List.mem_map.mp hpiece with ⟨i, _, rfl⟩
    exact charAt_subset chars (draws i) c hcp

/-- C6 witness: with the concrete in-range draw sequence
`i mod 36`, the generated code has the stated format. -/
theorem c6_adcode_format_witness :
    (∀ i, i < 11 → i % 36 < 36) ∧
    ((generateAdCode (fun i => i % 36)).length = 13 ∧
    (generateAdCode (fun i => i % 36)).toList.take 2 = ['A', 'D'] ∧
    (∀ c ∈ (generateAdCode (fun i => i % 36)).toList.drop 2, c ∈ chars.toList)) :=
  ⟨fun i _ => Nat.mod_lt i (by decide),
   c6_adcode_format (fun i => i % 36) (fun i _ => Nat.mod_lt i (by decide))⟩

/-- The character appended for an in-range random draw `k`:
`chars.charAt(k)`. -/
def drawChar (k : Fin 36) : Char := chars.toList.getD k.val 'A'

/-- C7 counterexample: the alphabet the code draws from,
`ABCDEFGHIJKLMNOPQRSTUVWXYZ0123456789`, has 36 symbols, not 37 as
the claim states. -/
theorem c7_alphabet_size_counterexample :
    chars.toList.length = 36 ∧ chars.toList.length ≠ 37 := by decide

/-- C7 (amended): the 11 random characters of a generated ad code
are drawn uniformly from the alphabet `A`-`Z`, `0`-`9` of 36 symbols:
the alphabet has 36 distinct symbols, each within `A`-`Z` or
`0`-`9`, and the map from the 36 equiprobable draw values to appended
characters is a bijection onto the alphabet. -/
theorem c7_uniform_draw_over_36_symbols :
    chars.toList.length = 36 ∧
    chars.toList.Nodup ∧
    (∀ c ∈ chars.toList, ('A' ≤ c ∧ c ≤ 'Z') ∨ ('0' ≤ c ∧ c ≤ '9')) ∧
    Function.Injective drawChar ∧
    (∀ c ∈ chars.toList, ∃ k : Fin 36, drawChar k = c) ∧
    (∀ k : Fin 36, drawChar k ∈ chars.toList ∧ charAt chars k.val = [drawChar k]) := by
  refine ⟨by decide, by decide, by decide, ?_, by decide, by decide⟩
  intro a b hab
  have hd : ∀ a b : Fin 36, drawChar a = drawChar b → a = b := by decide
  exact hd a b hab

/-- Shape of every database write the handler performs: the record
is `mkPackageData` applied to the verification response, the
generated ad code and the two clock reads. -/
lemma handler_write_shape
    (secret : String) (hmacHex : String → String → String)
    (stringify : WebhookBody → String)
    (verify : String → Except String Verification)
    (draws : Nat → Nat) (nowMs dateNowMs : Nat) (req : Request)
    (eid pid : String) (pkg : PackageData)
    (hw : (handler secret hmacHex stringify verify draws nowMs dateNowMs req).write
        = some (eid, pid, pkg)) :
    ∃ v, verify req.body.data.id = Except.ok v ∧
      pkg = mkPackageData v (generateAdCode draws) nowMs dateNowMs := by
  by_cases hpost : req.method = "POST"
  case neg => simp [handler, hpost] at hw
  by_cases hsig : req.signature = some (hmacHex secret (stringify req.body))
  case neg => simp [handler, hpost, hsig] at hw
  by_cases hev : req.body.event = "charge.completed"
  case neg => simp [handler, hpost, hsig, hev] at hw
  by_cases hst : req.body.data.status = "successful"
  case neg => simp [handler, hpost, hsig, hev, hst] at hw
  cases hveq : verify req.body.data.id with
  | error e => simp [handler, hpost, hsig, hev, hst, hveq] at hw
  | ok v =>
    by_cases hvs : v.status = "success"
    case neg => simp [handler, hpost, hsig, hev, hst, hveq, hvs] at hw
    by_cases hvds : v.data.status = "successful"
    case neg => simp [handler, hpost, hsig, hev, hst, hveq, hvs, hvds] at hw
    cases hp : parseTransactionRef req.body.data.tx_ref with
    | none => simp [handler, hpost, hsig, hev, hst, hveq, hvs, hvds, hp] at hw
    | some eid2 =>
      by_cases hne : eid2 = ""
      · simp [handler, hpost, hsig, hev, hst, hveq, hvs, hvds, hp, hne] at hw
      · refine ⟨v, rfl, ?_⟩
        simp [handler, hpost, hsig, hev, hst, hveq, hvs, hvds, hp, hne] at hw
        exact hw.2.2.symm

/-- C8: every record the handler writes has `createdAt` equal to the
creation instant `nowMs` and `expiresAt` exactly equal to
`createdAt` plus 7 days (604800 seconds, in milliseconds). -/
theorem c8_expiry_exactly_seven_days
    (secret : String) (hmacHex : String → String → String)
    (stringify : WebhookBody → String)
    (verify : String → Except String Verification)
    (draws : Nat → Nat) (nowMs dateNowMs : Nat) (req : Request)
    (eid pid : String) (pkg : PackageData)
    (hw : (handler secret hmacHex stringify verify draws nowMs dateNowMs req).write
        = some (eid, pid, pkg)) :
    pkg.createdAt = nowMs ∧ pkg.expiresAt = pkg.createdAt + 604800 * 1000 := by
  obtain ⟨v, -, rfl⟩ :=
    handler_write_shape secret hmacHex stringify verify draws nowMs dateNowMs req
      eid pid pkg hw
  exact ⟨rfl, rfl⟩

/-- C8 witness: the happy-path run writes a record created at the
concrete instant 1700000000000 that expires exactly 604800000
milliseconds later. -/
theorem c8_expiry_exactly_seven_days_witness :
    okRun.write = some ("evt123", "ads_pkg_1700000000005",
      mkPackageData okVerification (generateAdCode (fun i => i))
        1700000000000 1700000000005) ∧
    ((mkPackageData okVerification (generateAdCode (fun i => i))
        1700000000000 1700000000005).createdAt = 1700000000000 ∧
     (mkPackageData okVerification (generateAdCode (fun i => i))
        1700000000000 1700000000005).expiresAt =
      (mkPackageData okVerification (generateAdCode (fun i => i))
        1700000000000 1700000000005).createdAt + 604800 * 1000) :=
  ⟨by decide,
   c8_expiry_exactly_seven_days "secret" okHmac okStringify okVerify (fun i => i)
     1700000000000 1700000000005 okReq "evt123" "ads_pkg_1700000000005"
     (mkPackageData okVerification (generateAdCode (fun i => i))
       1700000000000 1700000000005) (by decide)⟩

/-- C9: the persisted record and the success response depend on the
inbound body only through its event type, status, transaction id and
transaction reference: two signed POST requests agreeing on those
but differing arbitrarily in the inbound amount, currency, customer
or other data fields produce identical handler outcomes, because
every payment field is taken from the provider's verification
response. -/
theorem c9_record_depends_only_on_verification
    (secret : String) (hmacHex : String → String → String)
    (stringify : WebhookBody → String)
    (verify : String → Except String Verification)
    (draws : Nat → Nat) (nowMs dateNowMs : Nat) (req1 req2 : Request)
    (hpost1 : req1.method = "POST") (hpost2 : req2.method = "POST")
    (hsig1 : req1.signature = some (hmacHex secret (stringify req1.body)))
    (hsig2 : req2.signature = some (hmacHex secret (stringify req2.body)))
    (hev : req1.body.event = req2.body.event)
    (hid : req1.body.data.id = req2.body.data.id)
    (hst : req1.body.data.status = req2.body.data.status)
    (htx : req1.body.data.tx_ref = req2.body.data.tx_ref) :
    handler secret hmacHex stringify verify draws nowMs dateNowMs req1 =
    handler secret hmacHex stringify verify draws nowMs dateNowMs req2 := by
  simp only [handler, hpost1, hpost2, hsig1, hsig2, hev, hid, hst, htx]
  simp

/-- C9 witness: two concrete signed requests differing in inbound
amount, currency and customer produce identical handler outcomes. -/
theorem c9_record_depends_only_on_verification_witness :
    (okReq.body.data.amount ≠ altReq.body.data.amount ∧
     okReq.body.data.currency ≠ altReq.body.data.currency ∧
     okReq.body.data.customer ≠ altReq.body.data.customer) ∧
    handler "secret" okHmac okStringify okVerify (fun i => i) 0 0 okReq =
    handler "secret" okHmac okStringify okVerify (fun i => i) 0 0 altReq :=
  ⟨by decide,
   c9_record_depends_only_on_verification "secret" okHmac okStringify okVerify
     (fun i => i) 0 0 okReq altReq rfl rfl rfl rfl rfl rfl rfl rfl⟩

end Rewarder
